import Mathlib

/-!
Shallow embedding of the codeIDE backend (src/index.js): an Express application
over two mongoose collections (User, Project) with a JWT gate on the project
routes.  Mongo ObjectId values are modelled as Nat; mongoose String paths with
no declared default are `Option String` (a path left undefined is absent from
the saved document).  The black-box primitives of the spec (bcrypt hashing,
JWT signature verification, the document store) are modelled as deterministic
Lean functions or passed as parameters.
-/

namespace CodeIDE

/-- The claims jwt.sign embeds at login: `{ userId: user._id, username: user.username }`.
After `authenticateToken` verifies a token they are available as `req.user`. -/
structure Claims where
  userId : Nat
  username : Option String
deriving DecidableEq, Repr

/-- A document of the Project collection.  ProjectSchema declares the paths
name, userId, htmlCode, cssCode, jsCode, all of type String with no defaults;
`timestamps` is not enabled, so there is no createdAt path.  The store-assigned
_id is `id`; userId holds an ObjectId-valued string, modelled as Nat. -/
structure Project where
  id : Nat
  name : Option String
  userId : Option Nat
  htmlCode : Option String
  cssCode : Option String
  jsCode : Option String
deriving DecidableEq, Repr

/-- The Project collection together with the generator of fresh _id values. -/
structure ProjectStore where
  projects : List Project
  nextId : Nat
deriving DecidableEq, Repr

def ProjectStore.empty : ProjectStore := ⟨[], 0⟩

/-- `Project.findById(pid)`: the document whose _id matches, if any.  The _id
index is unique, so at most one document matches in a reachable store. -/
def findById (s : ProjectStore) (pid : Nat) : Option Project :=
  s.projects.find? (fun q => q.id == pid)

/-- GET /project/:projectId (body of the route handler, after authenticateToken).
`const project = await Project.findById(...); res.json(project);` — there is no
null check, so a missing document is serialised as a 200 response with a null
body.  Returns (status, body).  The handler never consults `req.user`. -/
def getProject (_user : Claims) (s : ProjectStore) (pid : Nat) : Nat × Option Project :=
  (200, findById s pid)

/-- DELETE /project/:projectId.  `Project.findByIdAndDelete` removes the (unique)
document with the given _id and returns it; a null result yields 404, otherwise
200 with a confirmation message.  Returns (status, message, new store).  The
handler never consults `req.user`. -/
def deleteProject (_user : Claims) (s : ProjectStore) (pid : Nat) :
    Nat × String × ProjectStore :=
  match findById s pid with
  | none => (404, "Project not found", s)
  | some _ =>
      (200, "Project deleted successfully",
        { s with projects := s.projects.eraseP (fun q => q.id == pid) })

/-- The request-body fields POST /project can see.  A `userId` field is included
because a caller may supply one; the handler never reads it. -/
structure ProjectBody where
  name : Option String
  userId : Option Nat
  htmlCode : Option String
  cssCode : Option String
  jsCode : Option String
deriving DecidableEq, Repr

/-- POST /project: builds the document from req.body.name and the three code
fields of the body, takes userId from `req.user.userId` (verified claims, never
from the body), saves it and responds 201 with the new document.
Returns (status, created document, new store). -/
def createProject (user : Claims) (s : ProjectStore) (body : ProjectBody) :
    Nat × Project × ProjectStore :=
  let newProject : Project :=
    { id := s.nextId
      name := body.name
      userId := some user.userId
      htmlCode := body.htmlCode
      cssCode := body.cssCode
      jsCode := body.jsCode }
  (201, newProject, { projects := s.projects ++ [newProject], nextId := s.nextId + 1 })

/-- The request-body fields PUT /project/:projectId destructures. -/
structure UpdateBody where
  htmlCode : Option String
  cssCode : Option String
  jsCode : Option String
deriving DecidableEq, Repr

/-- JavaScript `x || ""` on a possibly-absent string: undefined and "" are both
falsy, so the expression yields the supplied string when present and "" when
the field is absent (an explicitly supplied "" also yields ""). -/
def orEmpty : Option String → String
  | none => ""
  | some st => st

/-- PUT /project/:projectId: findById; a null result yields 404; otherwise the
three code paths are overwritten with `field || ""`, the document is saved back
(replacing the document carrying that _id), and the updated document is the 200
body.  Returns (status, body, new store).  The handler never consults
`req.user`. -/
def updateProject (_user : Claims) (s : ProjectStore) (pid : Nat) (body : UpdateBody) :
    Nat × Option Project × ProjectStore :=
  match findById s pid with
  | none => (404, none, s)
  | some p =>
      let p' : Project :=
        { p with
          htmlCode := some (orEmpty body.htmlCode)
          cssCode := some (orEmpty body.cssCode)
          jsCode := some (orEmpty body.jsCode) }
      (200, some p',
        { s with projects := s.projects.map (fun q => if q.id == pid then p' else q) })

/-- The createdAt sort key used by GET /projects.  ProjectSchema declares no
createdAt path and timestamps are not enabled, so the key is missing on every
document. -/
def createdAt (_p : Project) : Option Nat := none

/-- Mongo's descending comparison on the createdAt key: `a` may precede `b`.
Documents on which the key is missing compare equal. -/
def beforeByCreatedAtDesc (a b : Project) : Bool :=
  match createdAt a, createdAt b with
  | some x, some y => decide (y ≤ x)
  | some _, none => true
  | none, some _ => false
  | none, none => true

/-- Stable insertion step of the sort stage. -/
def insertDoc (a : Project) : List Project → List Project
  | [] => [a]
  | b :: l => if beforeByCreatedAtDesc a b then a :: b :: l else b :: insertDoc a l

/-- The store's sort stage, `.sort(\x7b createdAt: -1 \x7d)`, modelled as a
stable sort on the (always missing) createdAt key. -/
def sortByCreatedAtDesc : List Project → List Project
  | [] => []
  | a :: l => insertDoc a (sortByCreatedAtDesc l)

/-- GET /projects: `Project.find(\x7b userId: req.user.userId \x7d)` followed by
the sort stage on createdAt descending.  Returns (status, body). -/
def listProjects (user : Claims) (s : ProjectStore) : Nat × List Project :=
  (200, sortByCreatedAtDesc (s.projects.filter (fun q => q.userId == some user.userId)))

/-- A document of the User collection (UserSchema: username, email, password,
all String, no defaults, no uniqueness constraint on email). -/
structure User where
  id : Nat
  username : Option String
  email : Option String
  password : Option String
deriving DecidableEq, Repr

/-- The User collection together with the generator of fresh _id values. -/
structure UserStore where
  users : List User
  nextId : Nat
deriving DecidableEq, Repr

def UserStore.empty : UserStore := ⟨[], 0⟩

/-- Black-box model of `bcrypt.hash(password, 10)` on a present password:
a deterministic one-way digest (spec treats hash internals as out of scope). -/
def bcryptHash (password : String) : String := "bcrypt10$" ++ password

/-- Black-box model of `bcrypt.compare(password, digest)`: succeeds exactly when
the digest was produced from the password. -/
def bcryptCompare (password digest : String) : Bool := digest == bcryptHash password

/-- The request-body fields POST /register reads. -/
structure RegisterBody where
  username : Option String
  email : Option String
  password : Option String
deriving DecidableEq, Repr

/-- POST /register: `bcrypt.hash(req.body.password, 10)` throws on a missing
password and the catch block answers 400; otherwise a User is built from the
body fields (absent username/email stay absent — there is no presence check)
and saved, answering 201.  Returns (status, new store). -/
def register (s : UserStore) (body : RegisterBody) : Nat × UserStore :=
  match body.password with
  | none => (400, s)
  | some pw =>
      let user : User :=
        { id := s.nextId
          username := body.username
          email := body.email
          password := some (bcryptHash pw) }
      (201, { users := s.users ++ [user], nextId := s.nextId + 1 })

/-- The request-body fields POST /login reads. -/
structure LoginBody where
  email : Option String
  password : Option String
deriving DecidableEq, Repr

/-- The payload jwt.sign embeds on a successful login (the 1-hour expiry and
signature are handled by the verification primitive). -/
structure Token where
  userId : Nat
  username : Option String
deriving DecidableEq, Repr

/-- POST /login: `User.findOne(\x7b email \x7d)` (a mongoose query drops
undefined values, so an absent body email matches the first user); no user →
404; `bcrypt.compare` against the stored digest (bcrypt throws when either side
is missing, caught → 400); mismatch → 401; match → 200 with a token embedding
the user's _id and username.  Returns (status, token). -/
def login (s : UserStore) (body : LoginBody) : Nat × Option Token :=
  let found :=
    match body.email with
    | none => s.users.head?
    | some e => s.users.find? (fun u => u.email == some e)
  match found with
  | none => (404, none)
  | some user =>
      match body.password, user.password with
      | none, _ => (400, none)
      | some _, none => (400, none)
      | some pw, some digest =>
          if bcryptCompare pw digest then
            (200, some { userId := user.id, username := user.username })
          else (401, none)

/-- `authenticateToken`: the Authorization header value is used verbatim as the
token (`const token = authHeader;` — no "Bearer " stripping); an absent header
(`token == null`) answers 401; a failed `jwt.verify` (bad signature, malformed,
expired) answers 403; on success the claims become `req.user` and the route
handler runs.  The verification primitive (which checks signature and expiry)
is a parameter. -/
def authenticateToken (verify : String → Option Claims) (authHeader : Option String) :
    Except Nat Claims :=
  match authHeader with
  | none => Except.error 401
  | some token =>
      match verify token with
      | none => Except.error 403
      | some user => Except.ok user

/-- A protected route: the handler runs only when `authenticateToken` passes;
otherwise the middleware's status is the response. -/
def runProtected {α : Type} (verify : String → Option Claims) (authHeader : Option String)
    (handler : Claims → α) : Except Nat α :=
  match authenticateToken verify authHeader with
  | Except.error st => Except.error st
  | Except.ok user => Except.ok (handler user)

/-- A sample verifier accepting exactly the token string "tok123": used to
exhibit that the middleware does not strip a "Bearer " literal from the
header value. -/
def acceptsTok123 : String → Option Claims :=
  fun t => if t = "tok123" then some ⟨5, none⟩ else none

/-! Concrete documents and stores used by witnesses and counterexamples. -/

def wProject : Project := ⟨0, some "site", some 99, some "<h1>x</h1>", some "b", some "c"⟩

def wOwner : Claims := ⟨99, some "owner"⟩

def wIntruder : Claims := ⟨1, some "intruder"⟩

def wIntruder2 : Claims := ⟨2, some "other"⟩

def wStore : ProjectStore := ⟨[wProject], 1⟩

def wEmptyBody : UpdateBody := ⟨none, none, none⟩

/-! Helper lemmas about find?, eraseP and the save-back map. -/

/-- Saving back the updated document: after replacing the documents carrying
_id `pid` by `p'`, a findById on `pid` yields `p'`. -/
theorem find?_map_save (l : List Project) (pid : Nat) (p p' : Project)
    (hid : p'.id = pid)
    (h : l.find? (fun q => q.id == pid) = some p) :
    (l.map (fun q => if q.id == pid then p' else q)).find? (fun q => q.id == pid)
      = some p' := by
  induction l with
  | nil => simp at h
  | cons x t ih =>
    cases hb : x.id == pid with
    | true =>
      have hb' : (p'.id == pid) = true := beq_iff_eq.mpr hid
      rw [List.map_cons, if_pos hb]
      exact List.find?_cons_of_pos _ hb'
    | false =>
      simp only [List.find?_cons, hb] at h
      simp only [List.map_cons, hb, Bool.false_eq_true, if_false, List.find?_cons]
      exact ih h

/-- Saving back the updated document leaves findById on every other _id
unchanged. -/
theorem find?_map_save_ne (l : List Project) (pid id' : Nat) (p' : Project)
    (hid : p'.id = pid) (hne : id' ≠ pid) :
    (l.map (fun q => if q.id == pid then p' else q)).find? (fun q => q.id == id')
      = l.find? (fun q => q.id == id') := by
  induction l with
  | nil => rfl
  | cons x t ih =>
    cases hb : x.id == pid with
    | true =>
      have hx : x.id = pid := beq_iff_eq.mp hb
      have h1 : (p'.id == id') = false := by
        rw [hid]; exact beq_eq_false_iff_ne.mpr (Ne.symm hne)
      have h2 : (x.id == id') = false := by
        rw [hx]; exact beq_eq_false_iff_ne.mpr (Ne.symm hne)
      simp only [List.map_cons, hb, if_true, List.find?_cons, h1, h2]
      exact ih
    | false =>
      simp only [List.map_cons, hb, Bool.false_eq_true, if_false, List.find?_cons]
      cases hx' : x.id == id' with
      | true => rfl
      | false => exact ih

/-- On a collection with pairwise distinct _ids (the unique _id index), erasing
the document with _id `pid` makes a findById on `pid` come back empty. -/
theorem find?_eraseP_self (l : List Project) (pid : Nat)
    (hnd : l.Pairwise (fun a b => a.id ≠ b.id)) :
    (l.eraseP (fun q => q.id == pid)).find? (fun q => q.id == pid) = none := by
  induction l with
  | nil => rfl
  | cons x t ih =>
    rcases List.pairwise_cons.mp hnd with ⟨hx, ht⟩
    cases hb : x.id == pid with
    | true =>
      have h : x.id = pid := beq_iff_eq.mp hb
      simp only [List.eraseP_cons, hb, cond_true, List.find?_eq_none]
      intro a ha
      simp only [beq_iff_eq]
      intro hap
      exact hx a ha (by rw [h, hap])
    | false =>
      simp only [List.eraseP_cons, hb, cond_false, List.find?_cons]
      exact ih ht

/-- C1: for every authenticated caller, the outcome of get, update and delete
on /project/:id is independent of the caller's claims — in particular of
whether the caller's ownerId matches the project's owner — and an authenticated
non-owner succeeds (status 200) on all three operations on any existing
project: no ownership check is performed. -/
theorem c1_no_ownership_check (c₁ c₂ : Claims) (s : ProjectStore) (pid : Nat)
    (body : UpdateBody) (p : Project)
    (hfind : findById s pid = some p) (hown : p.userId ≠ some c₁.userId) :
    getProject c₁ s pid = getProject c₂ s pid ∧
    deleteProject c₁ s pid = deleteProject c₂ s pid ∧
    updateProject c₁ s pid body = updateProject c₂ s pid body ∧
    getProject c₁ s pid = (200, some p) ∧
    (deleteProject c₁ s pid).1 = 200 ∧
    (updateProject c₁ s pid body).1 = 200 := by
  refine ⟨rfl, rfl, rfl, ?_, ?_, ?_⟩ <;>
    simp [getProject, deleteProject, updateProject, hfind]

/-- Witness for C1: an authenticated intruder (userId 1) operating on a project
owned by userId 99. -/
theorem c1_no_ownership_check_witness :
    getProject wIntruder wStore 0 = getProject wIntruder2 wStore 0 ∧
    deleteProject wIntruder wStore 0 = deleteProject wIntruder2 wStore 0 ∧
    updateProject wIntruder wStore 0 wEmptyBody = updateProject wIntruder2 wStore 0 wEmptyBody ∧
    getProject wIntruder wStore 0 = (200, some wProject) ∧
    (deleteProject wIntruder wStore 0).1 = 200 ∧
    (updateProject wIntruder wStore 0 wEmptyBody).1 = 200 :=
  c1_no_ownership_check wIntruder wIntruder2 wStore 0 wEmptyBody wProject
    (by decide) (by decide)

/-- C2 counterexample: a get of an id that is not in the store does NOT fail
with NotFound — the handler has no null check, so it answers 200 with a null
body. -/
theorem c2_counterexample :
    findById ProjectStore.empty 0 = none ∧
    getProject wIntruder ProjectStore.empty 0 = (200, none) ∧
    (getProject wIntruder ProjectStore.empty 0).1 ≠ 404 := by decide

/-- C2 (amended): a get of an id not present in the store succeeds with status
200 and a null body (not NotFound); after a successful delete (on a store whose
documents carry pairwise distinct _ids, as the unique _id index guarantees), a
subsequent get of the same id likewise yields 200 with a null body. -/
theorem c2_get_absent_is_null (c c' : Claims) (s : ProjectStore) (pid : Nat)
    (hnd : s.projects.Pairwise (fun a b => a.id ≠ b.id)) :
    (findById s pid = none → getProject c s pid = (200, none)) ∧
    ((deleteProject c s pid).1 = 200 →
      getProject c' (deleteProject c s pid).2.2 pid = (200, none)) := by
  constructor
  · intro h
    simp [getProject, h]
  · intro h
    cases hf : findById s pid with
    | none => simp [deleteProject, hf] at h
    | some p =>
      have hf' : s.projects.find? (fun q => q.id == pid) = some p := hf
      have hnone := find?_eraseP_self s.projects pid hnd
      simp only [deleteProject, findById, hf', getProject]
      rw [hnone]

/-- Witness for C2: deleting the only project of the store, then getting its id,
yields 200 with a null body. -/
theorem c2_get_absent_is_null_witness :
    getProject wIntruder (deleteProject wOwner wStore 0).2.2 0 = (200, none) :=
  (c2_get_absent_is_null wOwner wIntruder wStore 0 (by decide)).2 (by decide)

/-- C3: a successful update stores, for each code field, the body's value when
present and "" when absent; in particular a body omitting all three code fields
clears all three to "" (not a no-op). -/
theorem c3_update_clears (c : Claims) (s : ProjectStore) (pid : Nat) (p : Project)
    (body : UpdateBody) (hfind : findById s pid = some p) :
    (updateProject c s pid body).1 = 200 ∧
    findById (updateProject c s pid body).2.2 pid
      = some { p with htmlCode := some (orEmpty body.htmlCode),
                      cssCode := some (orEmpty body.cssCode),
                      jsCode := some (orEmpty body.jsCode) } ∧
    findById (updateProject c s pid ⟨none, none, none⟩).2.2 pid
      = some { p with htmlCode := some "", cssCode := some "", jsCode := some "" } := by
  have hfind' : s.projects.find? (fun q => q.id == pid) = some p := hfind
  have hpid : p.id = pid := by
    have hpid0 := List.find?_some hfind'
    simp only [beq_iff_eq] at hpid0
    exact hpid0
  refine ⟨?_, ?_, ?_⟩
  · simp [updateProject, hfind]
  · simp only [updateProject, findById, hfind']
    exact find?_map_save s.projects pid p _ hpid hfind'
  · simp only [updateProject, findById, hfind']
    exact find?_map_save s.projects pid p _ hpid hfind'

/-- Witness for C3: updating the stored project (whose code fields are all
nonempty) with an empty body clears all three code fields to "". -/
theorem c3_update_clears_witness :
    findById (updateProject wOwner wStore 0 wEmptyBody).2.2 0
      = some { wProject with htmlCode := some "", cssCode := some "", jsCode := some "" } :=
  (c3_update_clears wOwner wStore 0 wProject wEmptyBody (by decide)).2.2

/-- C4: register followed by login with the same email and password succeeds
(status 200), provided no already-stored user carries that email, and the
token's embedded userId is exactly the _id the store assigned to the user
created by register. -/
theorem c4_register_then_login (s : UserStore) (un em pw : String)
    (hshadow : ∀ u ∈ s.users, u.email ≠ some em) :
    (register s ⟨some un, some em, some pw⟩).1 = 201 ∧
    login (register s ⟨some un, some em, some pw⟩).2 ⟨some em, some pw⟩
      = (200, some ⟨s.nextId, some un⟩) := by
  refine ⟨rfl, ?_⟩
  have hnone : s.users.find? (fun u => u.email == some em) = none := by
    rw [List.find?_eq_none]
    intro u hu
    simp only [beq_iff_eq]
    exact hshadow u hu
  simp only [register, login, List.find?_append, hnone, Option.none_or]
  simp [bcryptCompare]

/-- Witness for C4: registering alice on an empty store and logging in with her
credentials yields a token embedding _id 0, the id assigned at registration. -/
theorem c4_register_then_login_witness :
    login (register UserStore.empty ⟨some "alice", some "a@b.c", some "s3cret"⟩).2
        ⟨some "a@b.c", some "s3cret"⟩ = (200, some ⟨0, some "alice"⟩) :=
  (c4_register_then_login UserStore.empty "alice" "a@b.c" "s3cret" (by decide)).2

/-- C5: create responds 201, the persisted document's owner is the caller's
userId from the verified claims, the document is in the new store, and the
response and store are unchanged by whatever userId field the request body
carries. -/
theorem c5_create_forces_owner (c : Claims) (s : ProjectStore) (body : ProjectBody) :
    (createProject c s body).1 = 201 ∧
    (createProject c s body).2.1.userId = some c.userId ∧
    (createProject c s body).2.1 ∈ (createProject c s body).2.2.projects ∧
    ∀ v : Option Nat, createProject c s { body with userId := v } = createProject c s body := by
  refine ⟨rfl, rfl, ?_, fun v => rfl⟩
  simp [createProject]

/-- The caller and two-project store exhibiting the GET /projects ordering. -/
def c6Claims : Claims := ⟨7, some "carol"⟩

/-- A store holding two projects of the same owner, created one after the
other: _id 0 ("older") first, _id 1 ("newer") second. -/
def c6Store : ProjectStore :=
  (createProject c6Claims
    (createProject c6Claims ProjectStore.empty ⟨some "older", none, none, none, none⟩).2.2
    ⟨some "newer", none, none, none, none⟩).2.2

/-- C6: GET /projects does filter to the caller's own projects and yields [] for
a caller owning none, but it does NOT order by creation time descending: the
handler sorts on createdAt, yet ProjectSchema declares no createdAt path
(timestamps are not enabled), so the key is missing on every document and the
sort is vacuous — the two projects come back oldest-first ([0, 1]), not
newest-first ([1, 0]). -/
theorem c6_list_returns_insertion_order :
    (listProjects c6Claims c6Store).1 = 200 ∧
    (listProjects c6Claims c6Store).2.map (fun p => p.id) = [0, 1] ∧
    (listProjects c6Claims c6Store).2.map (fun p => p.id) ≠ [1, 0] ∧
    ((listProjects c6Claims c6Store).2.all
      (fun p => p.userId == some c6Claims.userId)) = true ∧
    (listProjects wIntruder c6Store).2 = [] ∧
    ∀ p : Project, createdAt p = none := by
  refine ⟨rfl, by decide, by decide, by decide, by decide, fun p => rfl⟩

/-- C7: the Authorization header value is passed raw to the verifier (a token
sent with a "Bearer " prefix is verified with the prefix still attached and so
is rejected); a request with no Authorization header answers 401; a token the
verifier rejects (bad signature, malformed, expired) answers 403 and the route
handler is not invoked (the response is the same whatever the handler); a
verified token runs the handler on the token's claims. -/
theorem c7_auth_gate {α : Type} (verify : String → Option Claims)
    (handler handler₂ : Claims → α) :
    runProtected verify none handler = Except.error 401 ∧
    (∀ t : String, verify t = none →
      runProtected verify (some t) handler = Except.error 403 ∧
      runProtected verify (some t) handler = runProtected verify (some t) handler₂) ∧
    (∀ t c, verify t = some c →
      runProtected verify (some t) handler = Except.ok (handler c)) ∧
    authenticateToken acceptsTok123 (some ("Bearer " ++ "tok123")) = Except.error 403 ∧
    authenticateToken acceptsTok123 (some "tok123") = Except.ok ⟨5, none⟩ := by
  refine ⟨rfl, ?_, ?_, by simp [authenticateToken, acceptsTok123],
    by simp [authenticateToken, acceptsTok123]⟩
  · intro t ht
    constructor <;> simp [runProtected, authenticateToken, ht]
  · intro t c ht
    simp [runProtected, authenticateToken, ht]

/-- Witness for C7: a rejected token answers 403, a missing header 401, and the
handler's output appears only for the verified token. -/
theorem c7_auth_gate_witness :
    acceptsTok123 "bad" = none ∧
    runProtected acceptsTok123 (some "bad") (fun c => c.userId) = Except.error 403 ∧
    runProtected acceptsTok123 none (fun c => c.userId) = Except.error 401 ∧
    runProtected acceptsTok123 (some "tok123") (fun c => c.userId) = Except.ok 5 :=
  ⟨by decide,
   ((c7_auth_gate acceptsTok123 (fun c => c.userId) (fun _ => 0)).2.1 "bad" (by decide)).1,
   (c7_auth_gate acceptsTok123 (fun c => c.userId) (fun _ => 0)).1,
   (c7_auth_gate acceptsTok123 (fun c => c.userId) (fun _ => 0)).2.2.1 "tok123" ⟨5, none⟩
     (by decide)⟩

/-- A create body omitting all three code fields. -/
def c8Body : ProjectBody := ⟨some "blank", none, none, none, none⟩

/-- C8 counterexample: a create whose body omits htmlCode does NOT persist the
field as the empty string — the schema declares no default, so the document is
saved with the field absent. -/
theorem c8_counterexample :
    c8Body.htmlCode = none ∧
    (createProject wIntruder ProjectStore.empty c8Body).2.1.htmlCode ≠ some "" ∧
    (createProject wIntruder ProjectStore.empty c8Body).2.1.htmlCode = none := by decide

/-- C8 (amended): create persists each code field exactly as supplied by the
body — a present field verbatim and an absent field as absent (undefined), not
as the empty string; the created document is what gets stored. -/
theorem c8_create_stores_fields_verbatim (c : Claims) (s : ProjectStore)
    (body : ProjectBody) :
    (createProject c s body).2.1.htmlCode = body.htmlCode ∧
    (createProject c s body).2.1.cssCode = body.cssCode ∧
    (createProject c s body).2.1.jsCode = body.jsCode ∧
    (createProject c s body).2.1 ∈ (createProject c s body).2.2.projects := by
  refine ⟨rfl, rfl, rfl, ?_⟩
  simp [createProject]

/-- C9: a successful update answers 200 with a document agreeing with the old
one on name, owner and _id; every other _id resolves to exactly the same
document as before; and the collection's size is unchanged. -/
theorem c9_update_frame (c : Claims) (s : ProjectStore) (pid : Nat) (body : UpdateBody)
    (p : Project) (hfind : findById s pid = some p) (id' : Nat) (hne : id' ≠ pid) :
    (updateProject c s pid body).1 = 200 ∧
    (∀ q, (updateProject c s pid body).2.1 = some q →
        q.name = p.name ∧ q.userId = p.userId ∧ q.id = p.id) ∧
    findById (updateProject c s pid body).2.2 id' = findById s id' ∧
    (updateProject c s pid body).2.2.projects.length = s.projects.length := by
  have hfind' : s.projects.find? (fun q => q.id == pid) = some p := hfind
  have hpid : p.id = pid := by
    have hpid0 := List.find?_some hfind'
    simp only [beq_iff_eq] at hpid0
    exact hpid0
  refine ⟨?_, ?_, ?_, ?_⟩
  · simp [updateProject, hfind]
  · intro q hq
    simp only [updateProject, findById, hfind', Option.some.injEq] at hq
    rw [← hq]
    exact ⟨rfl, rfl, rfl⟩
  · simp only [updateProject, findById, hfind']
    exact find?_map_save_ne s.projects pid id' _ hpid hne
  · simp [updateProject, findById, hfind']

/-- Witness for C9: updating the only project leaves lookups of another _id
unchanged, keeps name/owner/_id, and keeps the collection size. -/
theorem c9_update_frame_witness :
    findById (updateProject wOwner wStore 0 wEmptyBody).2.2 5 = findById wStore 5 ∧
    (updateProject wOwner wStore 0 wEmptyBody).2.2.projects.length
      = wStore.projects.length :=
  ⟨(c9_update_frame wOwner wStore 0 wEmptyBody wProject (by decide) 5 (by decide)).2.2.1,
   (c9_update_frame wOwner wStore 0 wEmptyBody wProject (by decide) 5 (by decide)).2.2.2⟩

/-- C10: register performs no presence validation on username or email — any
body with a present password yields 201 and persists a user carrying exactly
the body's (possibly absent) username and email and the password digest — while
a body with no password fails with 400 (bcrypt.hash throws on the missing
input) and leaves the store unchanged. -/
theorem c10_register_no_presence_check (s : UserStore) (b : RegisterBody)
    (pw : String) (hpw : b.password = some pw) :
    (register s b).1 = 201 ∧
    (register s b).2.users
      = s.users ++ [{ id := s.nextId, username := b.username, email := b.email,
                      password := some (bcryptHash pw) }] ∧
    ∀ b' : RegisterBody, b'.password = none → register s b' = (400, s) := by
  refine ⟨?_, ?_, ?_⟩
  · simp [register, hpw]
  · simp [register, hpw]
  · intro b' hb'
    simp [register, hb']

/-- Witness for C10: a register body with neither username nor email still
persists a user (201), and the password-less body answers 400. -/
theorem c10_register_no_presence_check_witness :
    (register UserStore.empty ⟨none, none, some "pw"⟩).1 = 201 ∧
    (register UserStore.empty ⟨none, none, some "pw"⟩).2.users
      = [⟨0, none, none, some (bcryptHash "pw")⟩] ∧
    register UserStore.empty ⟨some "dave", some "d@x", none⟩ = (400, UserStore.empty) :=
  ⟨(c10_register_no_presence_check UserStore.empty ⟨none, none, some "pw"⟩ "pw" rfl).1,
   (c10_register_no_presence_check UserStore.empty ⟨none, none, some "pw"⟩ "pw" rfl).2.1,
   (c10_register_no_presence_check UserStore.empty ⟨none, none, some "pw"⟩ "pw" rfl).2.2
     ⟨some "dave", some "d@x", none⟩ rfl⟩

end CodeIDE
